import Mathlib

/-!
Verification development for the BAlertX24 device-interface module
(`physiolabxr/interfaces/DeviceInterface/BAlertX24/BAlertX24_Interface.py`).

The module is a streaming session manager: a constructor (`__init__`) that
checks the platform and binds a pull socket, `start_stream` / `stop_stream`
lifecycle methods, and a non-blocking drain loop `process_frames` that turns
the socket's backlog of JSON messages into a normalized numeric batch.

The embedding below models the Python code shallowly:
* JSON numeric payloads (scalars and arbitrarily nested numeric arrays) are
  the inductive type `NDA`; numpy's `np.array`, `transpose` and slicing are
  given explicit list-level semantics.  The module converts frames with
  `astype(np.float64)`; all numeric payloads modelled here are integers, on
  which that conversion is exact, so scalars are carried as `Int`.
* fallible Python statements return `Except PyErr`; an uncaught Python
  exception is `Except.error`.
* the mutable instance attributes touched by the methods are the structure
  `Attrs`; the pull socket's pending buffer is the FIFO list `Attrs.queue`,
  and `recv_json(flags=NOBLOCK)` takes its head (raising `zmq.Again` on an
  empty buffer, which the code catches, or a JSON decode error on a
  malformed payload, which it does not).
-/

namespace BAlertX24

/-- Python exceptions that the module can raise. -/
inductive PyErr where
  | environmentError (msg : String)
  | nameError (name : String)
  | attributeError (name : String)
  | jsonDecodeError
  | indexError
  | valueError
deriving Repr, DecidableEq

/-- A JSON numeric payload: a scalar or an arbitrarily nested array.
This is the value space of the `frame` and `timestamp` fields. -/
inductive NDA where
  | scalar : Int → NDA
  | node : List NDA → NDA
deriving Repr

/-- The child list of a payload (empty for a scalar). -/
def NDA.children : NDA → List NDA
  | .scalar _ => []
  | .node xs => xs

/-- The scalar value of a payload (0 for a non-scalar; only read in-shape). -/
def NDA.toInt : NDA → Int
  | .scalar v => v
  | .node _ => 0

/-- The shape a nested list would have if it is rectangular, read down the
first-child path, exactly as numpy infers a candidate shape. -/
def pathShape : NDA → List Nat
  | .scalar _ => []
  | .node [] => [0]
  | .node (x :: xs) => (xs.length + 1) :: pathShape x

/-- Whether the payload is a rectangular array of exactly the given shape. -/
def hasShape : List Nat → NDA → Bool
  | [], .scalar _ => true
  | n :: s, .node xs => xs.length == n && xs.all (fun x => hasShape s x)
  | _, _ => false

/-- Shape inference for `np.array` on a nested list: the candidate shape read
along the first-child path, validated everywhere; `none` means the nesting is
ragged and `np.array(...)` raises `ValueError`. -/
def shape? (a : NDA) : Option (List Nat) :=
  if hasShape (pathShape a) a then some (pathShape a) else none

/-- Model of `np.array(lst).astype(np.float64)` for a Python list `lst` of
numeric payloads: stacks the elements into one array whose first axis indexes
the list, returning the array together with its shape; raises `ValueError`
when the nesting is ragged.  `astype(np.float64)` is exact on the integer
payloads carried here and leaves shape untouched. -/
def np_array (xs : List NDA) : Except PyErr (NDA × List Nat) :=
  match shape? (.node xs) with
  | some sh => .ok (.node xs, sh)
  | none => .error .valueError

/-- Indexing one level into an array, `a[i]`, with an (off-shape only)
default. -/
def get1 (a : NDA) (i : Nat) : NDA := a.children.getD i (.scalar 0)

/-- Scalar entry `a[i][j]` of a rank-2 array. -/
def get2 (a : NDA) (i j : Nat) : Int := (get1 (get1 a i) j).toInt

/-- Scalar entry `a[k][j][i]` of a rank-3 array. -/
def get3 (a : NDA) (k j i : Nat) : Int := (get1 (get1 (get1 a k) j) i).toInt

/-- Model of `a.transpose(2, 1, 0)` on an array of shape `[d0, d1, d2]`:
the array `b` of shape `[d2, d1, d0]` with `b[i][j][k] = a[k][j][i]`.
On any other shape argument the operation is not applied by the module. -/
def transpose210 (a : NDA) (sh : List Nat) : NDA :=
  match sh with
  | [d0, d1, d2] =>
    .node ((List.range d2).map fun i =>
      .node ((List.range d1).map fun j =>
        .node ((List.range d0).map fun k => .scalar (get3 a k j i))))
  | _ => a

/-- Model of `a.transpose(1, 0)` on an array of shape `[d0, d1]`:
the array `b` of shape `[d1, d0]` with `b[j][i] = a[i][j]`. -/
def transpose10 (a : NDA) (sh : List Nat) : NDA :=
  match sh with
  | [d0, d1] =>
    .node ((List.range d1).map fun j =>
      .node ((List.range d0).map fun i => .scalar (get2 a i j)))
  | _ => a

/-- Model of `a[0]`: the first slice along axis 0, raising `IndexError` when
axis 0 is empty (or the array is 0-D). -/
def index0 : NDA → Except PyErr NDA
  | .node (x :: _) => .ok x
  | .node [] => .error .indexError
  | .scalar _ => .error .indexError

/-- Model of `a[:, 0]` on an array of known shape: for shape `[n, d1, ...]`
the array of the `row[0]` slices of each row, raising `IndexError` when the
array has fewer than 2 dimensions (`too many indices`) or axis 1 is empty. -/
def sliceCol0 (a : NDA) (sh : List Nat) : Except PyErr NDA :=
  match sh with
  | _ :: d1 :: _ =>
    if d1 = 0 then .error .indexError
    else .ok (.node (a.children.map fun row => get1 row 0))
  | _ => .error .indexError

/-- An inbound message as it sits in the socket buffer: the JSON value a
`recv_json` call would yield — a data message `{t: "d", frame, timestamp}`, an
event message `{t: "e", message}` — or a malformed payload on which the JSON
decode inside `recv_json` raises. -/
inductive Msg where
  | data (frame : NDA) (timestamp : NDA)
  | event (message : String)
  | malformed
deriving Repr

/-- The mutable state of one `BAlertX24_Interface` instance: the attributes
assigned by the module's own code, plus the pull socket's pending FIFO
buffer (`queue`).  `terminate_event` is `none` before `start_stream`
allocates it and `some flag` afterwards, `flag` being whether it was set.
`device_process` is the recorded child process (never assigned by the
module, hence permanently `none`). -/
structure Attrs where
  port : Nat
  device_available : Bool
  terminate_event : Option Bool
  device_process : Option Nat
  queue : List Msg
deriving Repr

/-- Model of `get_executable_path()` (module lines 12-14): the driver
executable path below the script directory. -/
def get_executable_path : String := "x64/Debug/BAlertX24.exe"

/-- Evaluation of the attribute read `self.term_event` (line 57).  No
statement of the module assigns an attribute named `term_event` — the
constructor and `start_stream` assign `terminate_event` — and the base class
holds only the device identifier, type, nominal rate and availability
bookkeeping (modelled from the spec, section 1: the collaborator supplies "a
device identifier, a nominal sample rate, and a fixed channel-name list").
The read therefore raises `AttributeError`. -/
def lookup_term_event : Except PyErr Bool :=
  .error (.attributeError "term_event")

/-- Evaluation of the attribute read `self.license_path` (line 52).  No
statement of the module assigns an attribute named `license_path` (the
constructor's corresponding assignment writes `self.stream_path`, and itself
raises before executing), and the spec-modelled base class does not carry a
license path either, so the read raises `AttributeError`. -/
def lookup_license_path : Except PyErr (Option String) :=
  .error (.attributeError "license_path")

/-- Evaluation of the bare name `_license_path` (line 36).  The constructor's
parameter is spelled `license_path`; no local, module-level or builtin
binding of `_license_path` exists, so evaluating the name raises
`NameError`. -/
def lookup__license_path : Except PyErr (Option String) :=
  .error (.nameError "_license_path")

/-- The socket-flush loop of `stop_stream` (lines 60-64): repeated
`recv_json(flags=NOBLOCK)` until `zmq.Again`, discarding results.  Only
`zmq.Again` is caught, so a malformed payload in the buffer would raise its
decode error out of the loop. -/
def flush : List Msg → Except PyErr Unit
  | [] => .ok ()
  | .malformed :: _ => .error .jsonDecodeError
  | _ :: rest => flush rest

/-- Model of `stop_stream` (lines 56-64).  Its first statement evaluates
`self.term_event`, which raises `AttributeError`; the remainder (set the
termination event if any, clear availability, flush the socket) is the
unreachable continuation. -/
def stop_stream (s : Attrs) : Except PyErr Attrs :=
  match lookup_term_event with
  | .error e => .error e
  | .ok b =>
    let s := if b then { s with terminate_event := s.terminate_event.map fun _ => true } else s
    let s := { s with device_available := false }
    match flush s.queue with
    | .error e => .error e
    | .ok _ => .ok { s with queue := [] }

/-- Model of `start_stream` (lines 49-53): allocate a fresh unset termination
event, build the argument list `[get_executable_path(), str(self.port)]`, then
evaluate `self.license_path` — which raises `AttributeError`.  No statement of
the method (reachable or not) spawns a subprocess or assigns
`device_process`; on success it would merely return with the built argument
list in a dead local variable. -/
def start_stream (s : Attrs) : Except PyErr (Attrs × List String) :=
  let s := { s with terminate_event := some false }
  let args := [get_executable_path, toString s.port]
  match lookup_license_path with
  | .error e => .error e
  | .ok lp =>
    let args := match lp with
      | some path => args ++ ["--license", path]
      | none => args
    .ok (s, args)

/-- The accumulation loop of `process_frames` (lines 72-84), structurally
recursive over the socket buffer; `s` carries the remaining instance state
and the loop is invoked with the buffer `s.queue`.  Each iteration receives
one message: a data message appends its `frame` and `timestamp` to the
accumulators, an event message appends its `message` and then calls
`self.stop_stream()`, and a malformed payload raises its decode error out of
the loop (only `zmq.Again` is caught).  Should `stop_stream` ever return
normally, it has flushed the socket, so the loop's next receive raises
`zmq.Again` and breaks; the branch therefore returns the accumulators with
the post-stop state directly. -/
def drainLoop (s : Attrs) :
    List Msg → List NDA → List NDA → List String →
    Except PyErr (Attrs × List NDA × List NDA × List String)
  | [], frames, timestamps, messages => .ok ({ s with queue := [] }, frames, timestamps, messages)
  | .malformed :: _, _, _, _ => .error .jsonDecodeError
  | .event text :: rest, frames, timestamps, messages =>
    (match stop_stream { s with queue := rest } with
     | .error e => .error e
     | .ok s2 => .ok (s2, frames, timestamps, messages ++ [text]))
  | .data f t :: rest, frames, timestamps, messages =>
    drainLoop s rest (frames ++ [f]) (timestamps ++ [t]) messages

/-- The value `process_frames` returns: the Python method returns either the
raw accumulator lists (when no frame arrived) or a normalized numpy matrix
with the timestamp column slice. -/
inductive Ret where
  | raw (frames : List NDA) (timestamps : List NDA) (messages : List String)
  | arr (matrix : NDA) (timestamps : NDA) (messages : List String)
deriving Repr

/-- The timestamp sequence of a returned batch. -/
def Ret.tsSeq : Ret → List NDA
  | .raw _ ts _ => ts
  | .arr _ tcol _ => tcol.children

/-- Model of `process_frames` (lines 70-99).  Drain the socket, then, when at
least one frame arrived: stack the frames (`np.array(frames).astype(float64)`,
which may raise `ValueError` on ragged input); on a 3-D stack return
`frames_array.transpose(2, 1, 0)[0]`, on a 2-D stack `frames_array.transpose(1, 0)`,
otherwise the stack unchanged — in each case paired with
`np.array(timestamps)[:, 0]` (evaluated after the matrix, as in the source
tuple) and the message list.  With no frames the raw accumulator lists are
returned. -/
def process_frames (s : Attrs) : Except PyErr (Attrs × Ret) :=
  match drainLoop s s.queue [] [] [] with
  | .error e => .error e
  | .ok (s, frames, timestamps, messages) =>
    if frames.length > 0 then
      match np_array frames with
      | .error e => .error e
      | .ok (frames_array, fsh) =>
        if fsh.length = 3 then
          match index0 (transpose210 frames_array fsh) with
          | .error e => .error e
          | .ok m =>
            match np_array timestamps with
            | .error e => .error e
            | .ok (ta, tsh) =>
              match sliceCol0 ta tsh with
              | .error e => .error e
              | .ok tcol => .ok (s, .arr m tcol messages)
        else if fsh.length = 2 then
          match np_array timestamps with
          | .error e => .error e
          | .ok (ta, tsh) =>
            match sliceCol0 ta tsh with
            | .error e => .error e
            | .ok tcol => .ok (s, .arr (transpose10 frames_array fsh) tcol messages)
        else
          match np_array timestamps with
          | .error e => .error e
          | .ok (ta, tsh) =>
            match sliceCol0 ta tsh with
            | .error e => .error e
            | .ok tcol => .ok (s, .arr frames_array tcol messages)
    else
      .ok (s, .raw frames timestamps messages)

/-- Outcome of running the constructor `__init__` (lines 18-47): what it
raises or returns, and whether the ZMQ context creation and the socket
bind (the point where a port is allocated, lines 39-41) were reached. -/
structure InitOutcome where
  result : Except PyErr Unit
  context_created : Bool
  socket_bound : Bool
deriving Repr

/-- Model of `BAlertX24_Interface.__init__` (lines 18-47).  The base-class
constructor (not part of this module; modelled from the spec as a plain
recorder of the device identifier, type and nominal rate) returns normally.
Then: the platform guard raises `EnvironmentError` unless
`platform.system()` is `"Windows"` (lines 30-32); the assignments of
`stream_name` and `stream_type` succeed (lines 34-35); the assignment
`self.stream_path = _license_path` (line 36) evaluates the unbound name
`_license_path` and raises `NameError` — the constructor's actual parameter
(`license_path`, here `_licensePath`) is never read.  Only past that point
would the channel-name assignment, the ZMQ context, the socket and the port
bind execute (lines 37-44). -/
def interface_init (platform_system : String) (_device_name _device_type : String)
    (_device_nominal_sampling_rate : Nat) ( _ch_names : Option (List String))
    (_licensePath : Option String) : InitOutcome :=
  if platform_system ≠ "Windows" then
    { result := .error (.environmentError "Platform Not Supported: BAlertX24 is only supported on Windows"),
      context_created := false, socket_bound := false }
  else
    match lookup__license_path with
    | .error e => { result := .error e, context_created := false, socket_bound := false }
    | .ok _ => { result := .ok (), context_created := true, socket_bound := true }

/-- The right-hand side of the channel-name assignment `self.ch_names = [...]`
(line 37), with the constructor's `_ch_names` parameter in scope: the
expression is a hardcoded list literal and does not mention the parameter. -/
def ch_names_value ( _ch_names : Option (List String)) : List String :=
  ["Fp1", "F7", "F8", "T4", "T6", "T5", "T3", "Fp2", "O1", "P3", "Pz", "F3",
   "Fz", "F4", "C4", "P4", "POz", "C3", "Cz", "O2", "EKG", "AUX1", "AUX2", "AUX3"]

/-- A session state with the given socket backlog: availability down and no
termination event allocated — the `Idle` configuration the constructor's
tail would have produced (and the one `stop_stream` aims to re-establish). -/
def mkState (q : List Msg) : Attrs :=
  { port := 5555, device_available := false, terminate_event := none,
    device_process := none, queue := q }

/-- The frame payload `[[1, 2], [3, 4]]` of the spec's example scenario. -/
def c1_frame : NDA := .node [.node [.scalar 1, .scalar 2], .node [.scalar 3, .scalar 4]]

/-- The timestamp payload `[[100], [101]]` of the spec's example scenario. -/
def c1_ts : NDA := .node [.node [.scalar 100], .node [.scalar 101]]

/-- The session state of the spec's example scenario: the channel has
delivered the data message and then the event message `{t: "e",
message: "fault"}`. -/
def c1_state : Attrs := mkState [.data c1_frame c1_ts, .event "fault"]

end BAlertX24

namespace BAlertX24

/-! ## General lemmas about the embedded operations -/

theorem stop_stream_eq (s : Attrs) :
    stop_stream s = .error (.attributeError "term_event") := rfl

theorem start_stream_eq (s : Attrs) :
    start_stream s = .error (.attributeError "license_path") := rfl

theorem drainLoop_nil (s : Attrs) (fr ts : List NDA) (ms : List String) :
    drainLoop s [] fr ts ms = .ok ({ s with queue := [] }, fr, ts, ms) := rfl

theorem drainLoop_data (s : Attrs) (f t : NDA) (rest : List Msg)
    (fr ts : List NDA) (ms : List String) :
    drainLoop s (.data f t :: rest) fr ts ms
      = drainLoop s rest (fr ++ [f]) (ts ++ [t]) ms := rfl

theorem drainLoop_event (s : Attrs) (text : String) (rest : List Msg)
    (fr ts : List NDA) (ms : List String) :
    drainLoop s (.event text :: rest) fr ts ms
      = .error (.attributeError "term_event") := rfl

theorem drainLoop_malformed (s : Attrs) (rest : List Msg)
    (fr ts : List NDA) (ms : List String) :
    drainLoop s (.malformed :: rest) fr ts ms = .error .jsonDecodeError := rfl

/-- Draining a run of data messages accumulates their frames and timestamps
in arrival order. -/
theorem drainLoop_data_prefix (msgs : List (NDA × NDA)) :
    ∀ (s : Attrs) (rest : List Msg) (fr ts : List NDA) (ms : List String),
      drainLoop s ((msgs.map fun p => Msg.data p.1 p.2) ++ rest) fr ts ms
        = drainLoop s rest (fr ++ msgs.map Prod.fst) (ts ++ msgs.map Prod.snd) ms := by
  induction msgs with
  | nil => intro s rest fr ts ms; simp
  | cons p ps ih =>
    intro s rest fr ts ms
    simp only [List.map_cons, List.cons_append, drainLoop_data, ih]
    simp

/-- Draining a queue consisting solely of data messages returns them all,
in order, with the socket buffer consumed and no event messages. -/
theorem drainLoop_all_data (s : Attrs) (msgs : List (NDA × NDA)) :
    drainLoop s (msgs.map fun p => Msg.data p.1 p.2) [] [] []
      = .ok ({ s with queue := [] }, msgs.map Prod.fst, msgs.map Prod.snd, []) := by
  have h := drainLoop_data_prefix msgs s [] [] [] []
  simpa using h

theorem np_array_ok_inv (xs : List NDA) (a : NDA) (sh : List Nat)
    (h : np_array xs = .ok (a, sh)) :
    a = .node xs ∧ shape? (.node xs) = some sh := by
  unfold np_array at h
  split at h
  next sh' heq =>
    injection h with h2
    injection h2 with ha hsh
    subst ha; subst hsh
    exact ⟨rfl, heq⟩
  next => cases h

theorem sliceCol0_ok_inv (a : NDA) (sh : List Nat) (t : NDA)
    (h : sliceCol0 a sh = .ok t) :
    t = .node (a.children.map fun row => get1 row 0) := by
  unfold sliceCol0 at h
  split at h
  · split at h
    · cases h
    · injection h with h'; exact h'.symm
  · cases h

theorem shape?_some_pathShape (a : NDA) (sh : List Nat)
    (h : shape? a = some sh) : pathShape a = sh := by
  unfold shape? at h
  split at h
  · injection h
  · cases h

end BAlertX24

namespace BAlertX24

/-! ## Lemmas about the shape and entries of the normalized matrices -/

theorem pathShape_scalar_row (f : Nat → Int) (T : Nat) :
    pathShape (.node ((List.range T).map fun k => .scalar (f k))) = [T] := by
  cases T with
  | zero => simp [pathShape]
  | succ t =>
    rw [List.range_succ_eq_map, List.map_cons]
    simp [pathShape]

theorem hasShape_scalar_row (f : Nat → Int) (T : Nat) :
    hasShape [T] (.node ((List.range T).map fun k => .scalar (f k))) = true := by
  simp only [hasShape, List.length_map, List.length_range, beq_self_eq_true, Bool.true_and,
    List.all_eq_true]
  intro x hx
  obtain ⟨k, -, rfl⟩ := List.mem_map.mp hx
  rfl

theorem pathShape_mat (f : Nat → Nat → Int) (C T : Nat) (hC : 0 < C) :
    pathShape (.node ((List.range C).map fun j =>
      .node ((List.range T).map fun k => .scalar (f j k)))) = [C, T] := by
  obtain ⟨c, rfl⟩ := Nat.exists_eq_succ_of_ne_zero hC.ne'
  rw [List.range_succ_eq_map, List.map_cons]
  simp [pathShape, pathShape_scalar_row]

theorem hasShape_mat (f : Nat → Nat → Int) (C T : Nat) :
    hasShape [C, T] (.node ((List.range C).map fun j =>
      .node ((List.range T).map fun k => .scalar (f j k)))) = true := by
  simp only [hasShape, List.length_map, List.length_range, beq_self_eq_true, Bool.true_and,
    List.all_eq_true]
  intro x hx
  obtain ⟨j, -, rfl⟩ := List.mem_map.mp hx
  exact hasShape_scalar_row (f j) T

/-- Shape of an explicitly constructed scalar matrix with `C` rows of `T`
entries. -/
theorem shape?_mat (f : Nat → Nat → Int) (C T : Nat) (hC : 0 < C) :
    shape? (.node ((List.range C).map fun j =>
      .node ((List.range T).map fun k => .scalar (f j k)))) = some [C, T] := by
  unfold shape?
  rw [pathShape_mat f C T hC, hasShape_mat f C T]
  simp

theorem getD_map_range (g : Nat → NDA) (n i : Nat) (hi : i < n) (d : NDA) :
    ((List.range n).map g).getD i d = g i := by
  rw [List.getD_eq_getElem _ _ (by simpa using hi)]
  simp

/-- Entries of an explicitly constructed scalar matrix. -/
theorem get2_mat (f : Nat → Nat → Int) (C T c t : Nat) (hc : c < C) (ht : t < T) :
    get2 (.node ((List.range C).map fun j =>
      .node ((List.range T).map fun k => .scalar (f j k)))) c t = f c t := by
  unfold get2
  rw [show get1 (.node ((List.range C).map fun j =>
        .node ((List.range T).map fun k => .scalar (f j k)))) c
      = ((List.range C).map fun j =>
        NDA.node ((List.range T).map fun k => .scalar (f j k))).getD c (.scalar 0) from rfl]
  rw [getD_map_range _ C c hc]
  rw [show get1 (NDA.node ((List.range T).map fun k => NDA.scalar (f c k))) t
      = ((List.range T).map fun k => NDA.scalar (f c k)).getD t (.scalar 0) from rfl]
  rw [getD_map_range _ T t ht]
  rfl

/-- `frames_array.transpose(2, 1, 0)[0]` on a 3-D stack with a non-empty last
axis: the lead-0 (channel, time) matrix. -/
theorem index0_transpose210 (a : NDA) (T C L : Nat) (hL : 0 < L) :
    index0 (transpose210 a [T, C, L])
      = .ok (.node ((List.range C).map fun j =>
          .node ((List.range T).map fun k => .scalar (get3 a k j 0)))) := by
  obtain ⟨l, rfl⟩ := Nat.exists_eq_succ_of_ne_zero hL.ne'
  simp only [transpose210]
  rw [List.range_succ_eq_map, List.map_cons]
  rfl

/-- A stack whose inferred shape is 3-D has a positive middle (channel)
dimension: nested lists cannot represent an empty axis below a non-empty
one. -/
theorem rank3_mid_pos (frames : List NDA) (T C L : Nat)
    (h : shape? (.node frames) = some [T, C, L]) : 0 < C := by
  have hp := shape?_some_pathShape _ _ h
  cases frames with
  | nil => simp [pathShape] at hp
  | cons x xs =>
    rw [show pathShape (.node (x :: xs)) = (xs.length + 1) :: pathShape x from rfl] at hp
    injection hp with h1 h2
    cases x with
    | scalar v => simp [pathShape] at h2
    | node ys =>
      cases ys with
      | nil => simp [pathShape] at h2
      | cons y ys' =>
        rw [show pathShape (.node (y :: ys')) = (ys'.length + 1) :: pathShape y from rfl] at h2
        injection h2 with h3 h4
        omega

end BAlertX24

namespace BAlertX24

/-! ## Claims -/

/-- C1 (counterexample): on the spec's example scenario — the channel
delivers the data message `{t:"d", frame:[[1,2],[3,4]], timestamp:[[100],[101]]}`
followed by `{t:"e", message:"fault"}` — one `process_frames` call does not
return a batch at all: it raises `AttributeError`, so in particular it does
not return the matrix `[[1,3],[2,4]]` with timestamps `[100,101]` and
messages `["fault"]`, and no transition to Idle is observable. -/
theorem c1_scenario_counterexample :
    process_frames c1_state = .error (.attributeError "term_event") := rfl

/-- C1 (amended): on the spec's example scenario, the drain loop accumulates
the data message, then the event message appends `"fault"` to the message
list and internally invokes `stop_stream` — whose first statement reads the
never-assigned attribute `term_event` and raises `AttributeError`.  The
exception propagates out of `process_frames`: the caller observes an
`AttributeError` rather than the final batch, and the session state is not
modified. -/
theorem c1_scenario_amended :
    drainLoop c1_state [.data c1_frame c1_ts, .event "fault"] [] [] []
      = .error (.attributeError "term_event") ∧
    process_frames c1_state = .error (.attributeError "term_event") ∧
    stop_stream { c1_state with queue := [] } = .error (.attributeError "term_event") :=
  ⟨rfl, rfl, rfl⟩

/-- C4 (code bug): `stop_stream`, called from any state — in particular from
Idle before any `start_stream`, when no termination signal has been
allocated — does not perform its documented sequence and is not a no-op:
its first statement `if self.term_event:` reads an attribute that no code
ever assigns (the allocated event is named `terminate_event`), so every call
raises `AttributeError` before touching the termination signal, the
availability flag or the channel. -/
theorem c4_stop_stream_raises (s : Attrs) :
    stop_stream s = .error (.attributeError "term_event") := rfl

/-- Witness: `stop_stream` from the initial Idle state raises. -/
theorem c4_stop_stream_raises_witness :
    stop_stream (mkState []) = .error (.attributeError "term_event") :=
  c4_stop_stream_raises (mkState [])

/-- C5 (counterexample): with a malformed payload at the head of the channel
followed by a well-formed data message, `process_frames` raises the decode
error to the caller instead of dropping the message and draining on: the
decode failure surfaces and the subsequent data message is never
delivered. -/
theorem c5_counterexample :
    process_frames (mkState [.malformed, .data c1_frame c1_ts])
      = .error .jsonDecodeError := rfl

/-- C5 (amended): a malformed payload is fatal to the whole drain call: the
decode failure inside `recv_json` is not caught (only `zmq.Again` is), so
for any run of data messages followed by a malformed payload,
`process_frames` raises the decode error, discarding what was accumulated
and leaving the rest of the backlog undrained. -/
theorem c5_malformed_amended (s : Attrs) (msgs : List (NDA × NDA)) (rest : List Msg)
    (hq : s.queue = (msgs.map fun p => Msg.data p.1 p.2) ++ Msg.malformed :: rest) :
    process_frames s = .error .jsonDecodeError := by
  simp only [process_frames, hq, drainLoop_data_prefix, drainLoop_malformed]

/-- Witness for C5 at a concrete channel backlog. -/
theorem c5_malformed_amended_witness :
    process_frames (mkState [.data c1_frame c1_ts, .malformed])
      = .error .jsonDecodeError :=
  c5_malformed_amended (mkState [.data c1_frame c1_ts, .malformed])
    [(c1_frame, c1_ts)] [] rfl

/-- C6 (code bug): `start_stream` allocates a fresh unset termination event
and builds the command line `[executable_path, str(port)]`, but then reads
`self.license_path` — an attribute no code assigns — and raises
`AttributeError`; moreover the method contains no spawn call at all, so no
child driver process is ever recorded (`device_process` is never assigned
anywhere). -/
theorem c6_start_stream_raises (s : Attrs) :
    start_stream s = .error (.attributeError "license_path") := rfl

/-- Witness: `start_stream` from the initial Idle state raises. -/
theorem c6_start_stream_raises_witness :
    start_stream (mkState []) = .error (.attributeError "license_path") :=
  c6_start_stream_raises (mkState [])

/-- C7 (counterexample): from the Idle state (availability down, no
termination event, empty channel), `process_frames` does not fail with a
defined error — it performs a normal drain and returns the empty batch. -/
theorem c7_counterexample :
    process_frames (mkState []) = .ok (mkState [], .raw [] [] []) := rfl

/-- C7 (amended): `process_frames` performs no session-state check at all:
from any state whose channel is empty — in particular from Idle after a
stop and before the next start — it completes a normal drain and returns
the empty raw batch, raising no error. -/
theorem c7_poll_idle_amended (s : Attrs) (h : s.queue = []) :
    process_frames s = .ok ({ s with queue := [] }, .raw [] [] []) := by
  simp [process_frames, h, drainLoop_nil]

/-- Witness for C7 at the concrete Idle state. -/
theorem c7_poll_idle_witness :
    process_frames (mkState []) = .ok ({ mkState [] with queue := [] }, .raw [] [] []) :=
  c7_poll_idle_amended (mkState []) rfl

/-- C8: constructing the interface on a host OS other than Windows raises
the unsupported-platform `EnvironmentError` from the platform guard, which
runs before the ZMQ context is created and before the socket is bound, so
no port is allocated on the failure path. -/
theorem c8_platform_guard (p dn dt : String) (rate : Nat)
    (cn : Option (List String)) (lp : Option String) (hp : p ≠ "Windows") :
    (interface_init p dn dt rate cn lp).result
        = .error (.environmentError
            "Platform Not Supported: BAlertX24 is only supported on Windows") ∧
    (interface_init p dn dt rate cn lp).context_created = false ∧
    (interface_init p dn dt rate cn lp).socket_bound = false := by
  unfold interface_init
  rw [if_pos hp]
  exact ⟨rfl, rfl, rfl⟩

/-- Witness for C8 on a Linux host. -/
theorem c8_platform_guard_witness :
    ("Linux" : String) ≠ "Windows" ∧
    (interface_init "Linux" "BAlertX24" "eeg" 256 none none).result
        = .error (.environmentError
            "Platform Not Supported: BAlertX24 is only supported on Windows") ∧
    (interface_init "Linux" "BAlertX24" "eeg" 256 none none).socket_bound = false := by
  refine ⟨by decide, ?_, ?_⟩
  · exact (c8_platform_guard "Linux" "BAlertX24" "eeg" 256 none none (by decide)).1
  · exact (c8_platform_guard "Linux" "BAlertX24" "eeg" 256 none none (by decide)).2.2

/-- C9: on Windows, every choice of constructor arguments makes `__init__`
raise `NameError` on the unbound name `_license_path` (line 36) before the
ZMQ context or socket is created; and on any platform the constructor never
returns normally, so no interface instance can ever be constructed. -/
theorem c9_init_name_error (p dn dt : String) (rate : Nat)
    (cn : Option (List String)) (lp : Option String) :
    (interface_init "Windows" dn dt rate cn lp).result
        = .error (.nameError "_license_path") ∧
    (interface_init "Windows" dn dt rate cn lp).context_created = false ∧
    (interface_init "Windows" dn dt rate cn lp).socket_bound = false ∧
    (interface_init p dn dt rate cn lp).result ≠ .ok () := by
  refine ⟨rfl, rfl, rfl, ?_⟩
  by_cases hp : p = "Windows"
  · subst hp
    intro h
    have h2 : Except.error (PyErr.nameError "_license_path") = Except.ok () := h
    cases h2
  · unfold interface_init
    rw [if_pos hp]
    intro h
    exact Except.noConfusion h

/-- Witness for C9 at concrete constructor arguments. -/
theorem c9_init_name_error_witness :
    (interface_init "Windows" "BAlertX24" "eeg" 256 none none).result
        = .error (.nameError "_license_path") ∧
    (interface_init "Darwin" "BAlertX24" "eeg" 256 none none).result ≠ .ok () :=
  ⟨(c9_init_name_error "Darwin" "BAlertX24" "eeg" 256 none none).1,
   (c9_init_name_error "Darwin" "BAlertX24" "eeg" 256 none none).2.2.2⟩

/-- C10: the channel-name assignment ignores the `_ch_names` parameter: its
value is the same fixed list for every argument value, with exactly 24
entries starting at "Fp1" and ending at "AUX3" — a caller-supplied channel
list is silently ignored and the channel cardinality is always 24. -/
theorem c10_ch_names_fixed (v w : Option (List String)) :
    ch_names_value v = ch_names_value w ∧
    (ch_names_value v).length = 24 ∧
    (ch_names_value v).head? = some "Fp1" ∧
    (ch_names_value v).getLast? = some "AUX3" :=
  ⟨rfl, rfl, rfl, rfl⟩

/-- Witness for C10: an explicitly supplied channel list is ignored. -/
theorem c10_ch_names_fixed_witness :
    ch_names_value (some ["A", "B"]) = ch_names_value none ∧
    (ch_names_value (some ["A", "B"])).length = 24 :=
  ⟨(c10_ch_names_fixed (some ["A", "B"]) none).1,
   (c10_ch_names_fixed (some ["A", "B"]) none).2.1⟩

end BAlertX24

namespace BAlertX24

/-- Inversion of the shared tail of the three normalization branches: when the
branch returns a batch, the batch's timestamp component is the column slice of
the stacked timestamp list — the first row of each timestamp, in order. -/
theorem branch_ts_inv (mm : Except PyErr NDA) (tsl : List NDA) (st s2 : Attrs)
    (ms : List String) (r : Ret)
    (h : (match mm with
          | .error e => Except.error e
          | .ok m =>
            match np_array tsl with
            | .error e => Except.error e
            | .ok (ta, tsh) =>
              match sliceCol0 ta tsh with
              | .error e => Except.error e
              | .ok tcol => Except.ok (st, Ret.arr m tcol ms))
        = Except.ok (s2, r)) :
    ∃ m, r = .arr m (.node (tsl.map fun t => get1 t 0)) ms := by
  cases mm with
  | error e => simp at h
  | ok m =>
    cases hts : np_array tsl with
    | error e => simp only [hts] at h; simp at h
    | ok pr =>
      obtain ⟨ta, tsh⟩ := pr
      simp only [hts] at h
      cases hsl : sliceCol0 ta tsh with
      | error e => simp only [hsl] at h; simp at h
      | ok tcol =>
        simp only [hsl] at h
        simp only [Except.ok.injEq, Prod.mk.injEq] at h
        obtain ⟨-, hr⟩ := h
        refine ⟨m, ?_⟩
        rw [← hr]
        have h1 := sliceCol0_ok_inv ta tsh tcol hsl
        have h2 := (np_array_ok_inv tsl ta tsh hts).1
        subst h2
        rw [h1]
        rfl

end BAlertX24


namespace BAlertX24

/-- C2 (counterexample): a single data message whose frame is the 2-D array
`[[1]]` — so the stacked frame array is 3-D of shape (1, 1, 1) — but whose
timestamp is the scalar `100`: instead of returning the promised (1, 1)
matrix, `process_frames` raises `IndexError` (from
`np.array(timestamps)[:, 0]` applied to the 1-D timestamp stack), so no
matrix is returned for this non-empty sequence of data messages. -/
theorem c2_counterexample :
    process_frames (mkState [.data (.node [.node [.scalar 1]]) (.scalar 100)])
      = .error .indexError := rfl

/-- C2 (amended): for a non-empty run of data messages whose frames stack
into a rectangular array and whose timestamp stack admits the column slice
`[:, 0]` (at least 2-D with a non-empty second axis — scalar timestamps make
the call raise instead, see the counterexample): if the stacked frame array
is 3-D of shape (T, C, L) with L ≥ 1, the returned matrix is the lead-0
(C, T) matrix — shape `[C, T]`, entry (c, t) equal to the stacked input's
element (t, c, 0); if it is 2-D of shape (T, C), the returned matrix is the
transpose — shape `[C, T]` when C ≥ 1, entry (c, t) equal to element
(t, c); otherwise the stacked array is returned unchanged. -/
theorem c2_normalization_amended (s : Attrs) (msgs : List (NDA × NDA))
    (fa ta tcol : NDA) (fsh tsh : List Nat)
    (hq : s.queue = msgs.map fun p => Msg.data p.1 p.2)
    (hne : msgs ≠ [])
    (hf : np_array (msgs.map Prod.fst) = .ok (fa, fsh))
    (ht : np_array (msgs.map Prod.snd) = .ok (ta, tsh))
    (hs : sliceCol0 ta tsh = .ok tcol) :
    (∀ T C L, fsh = [T, C, L] → 0 < L →
      process_frames s = .ok ({ s with queue := [] },
        .arr (.node ((List.range C).map fun c =>
          .node ((List.range T).map fun t => .scalar (get3 fa t c 0)))) tcol []) ∧
      shape? (.node ((List.range C).map fun c =>
          .node ((List.range T).map fun t => .scalar (get3 fa t c 0)))) = some [C, T] ∧
      (∀ c < C, ∀ t < T,
        get2 (.node ((List.range C).map fun c2 =>
          .node ((List.range T).map fun t2 => .scalar (get3 fa t2 c2 0)))) c t
          = get3 fa t c 0)) ∧
    (∀ T C, fsh = [T, C] →
      process_frames s = .ok ({ s with queue := [] },
        .arr (.node ((List.range C).map fun c =>
          .node ((List.range T).map fun t => .scalar (get2 fa t c)))) tcol []) ∧
      (0 < C → shape? (.node ((List.range C).map fun c =>
          .node ((List.range T).map fun t => .scalar (get2 fa t c)))) = some [C, T]) ∧
      (∀ c < C, ∀ t < T,
        get2 (.node ((List.range C).map fun c2 =>
          .node ((List.range T).map fun t2 => .scalar (get2 fa t2 c2)))) c t
          = get2 fa t c)) ∧
    (fsh.length ≠ 3 → fsh.length ≠ 2 →
      process_frames s = .ok ({ s with queue := [] }, .arr fa tcol [])) := by
  have hlen : ((msgs.map (Prod.fst (β := NDA))).length) > 0 := by
    simp [List.length_pos, hne]
  refine ⟨?_, ?_, ?_⟩
  · rintro T C L rfl hL
    have hC : 0 < C :=
      rank3_mid_pos (msgs.map Prod.fst) T C L (np_array_ok_inv _ _ _ hf).2
    refine ⟨?_, ?_, ?_⟩
    · simp only [process_frames, hq, drainLoop_all_data]
      rw [if_pos hlen]
      simp only [hf]
      rw [if_pos (show ([T, C, L] : List Nat).length = 3 by simp)]
      simp only [index0_transpose210 fa T C L hL, ht, hs]
    · exact shape?_mat (fun j k => get3 fa k j 0) C T hC
    · intro c hc t ht2
      exact get2_mat (fun j k => get3 fa k j 0) C T c t hc ht2
  · rintro T C rfl
    refine ⟨?_, ?_, ?_⟩
    · simp only [process_frames, hq, drainLoop_all_data]
      rw [if_pos hlen]
      simp only [hf]
      rw [if_neg (show ¬ ([T, C] : List Nat).length = 3 by simp)]
      rw [if_pos (show ([T, C] : List Nat).length = 2 by simp)]
      simp only [ht, hs, transpose10]
    · intro hC
      exact shape?_mat (fun j k => get2 fa k j) C T hC
    · intro c hc t ht2
      exact get2_mat (fun j k => get2 fa k j) C T c t hc ht2
  · intro h3 h2
    simp only [process_frames, hq, drainLoop_all_data]
    rw [if_pos hlen]
    simp only [hf]
    rw [if_neg h3, if_neg h2]
    simp only [ht, hs]

/-- Witness for C2 at the spec's example frame: one data message with frame
`[[1, 2], [3, 4]]` and timestamp `[[100], [101]]`.  The stacked frame array
has shape (1, 2, 2), and the drain returns the lead-0 matrix `[[1], [3]]`
of shape (2, 1) together with the timestamp column `[[100]]`. -/
theorem c2_normalization_witness :
    process_frames (mkState [.data c1_frame c1_ts])
      = .ok (mkState [],
          .arr (.node ((List.range 2).map fun c =>
            .node ((List.range 1).map fun t => .scalar (get3 (.node [c1_frame]) t c 0))))
          (.node [get1 c1_ts 0]) []) ∧
    shape? (.node ((List.range 2).map fun c =>
      .node ((List.range 1).map fun t => .scalar (get3 (.node [c1_frame]) t c 0))))
      = some [2, 1] := by
  have h := c2_normalization_amended (mkState [.data c1_frame c1_ts])
    [(c1_frame, c1_ts)] (.node [c1_frame]) (.node [c1_ts]) (.node [get1 c1_ts 0])
    [1, 2, 2] [1, 2, 1] rfl (by simp) rfl rfl rfl
  obtain ⟨h3, -, -⟩ := h
  obtain ⟨hpf, hsh, -⟩ := h3 1 2 2 rfl (by decide)
  exact ⟨hpf, hsh⟩

/-- C3 (counterexample): one data message with the 1-D frame `[1, 2]` and
scalar timestamp `100`: the returned timestamp sequence should have length
1, but `process_frames` raises `IndexError` from
`np.array(timestamps)[:, 0]` on the 1-D timestamp stack and returns no
timestamp sequence at all. -/
theorem c3_counterexample :
    process_frames (mkState [.data (.node [.scalar 1, .scalar 2]) (.scalar 100)])
      = .error .indexError := rfl

/-- C3 (amended): whenever one drain over a backlog of N data messages
returns a batch — which, for N ≥ 1, requires every timestamp to be an array
of one common non-empty shape; scalar timestamps make the call raise
instead (see the counterexample) — the returned timestamp sequence is
exactly the first rows of the N timestamps in arrival order, and its length
is exactly N. -/
theorem c3_timestamps_amended (s s2 : Attrs) (msgs : List (NDA × NDA)) (r : Ret)
    (hq : s.queue = msgs.map fun p => Msg.data p.1 p.2)
    (hok : process_frames s = .ok (s2, r)) :
    r.tsSeq = (msgs.map Prod.snd).map (fun t => get1 t 0) ∧
    r.tsSeq.length = msgs.length := by
  simp only [process_frames, hq, drainLoop_all_data] at hok
  rcases msgs with _ | ⟨p, ps⟩
  · simp only [List.map_nil, List.length_nil, gt_iff_lt, lt_irrefl, if_false,
      Except.ok.injEq, Prod.mk.injEq] at hok
    obtain ⟨-, hr⟩ := hok
    rw [← hr]
    simp [Ret.tsSeq]
  · have hlen : (((p :: ps).map (Prod.fst (β := NDA))).length) > 0 := by simp
    rw [if_pos hlen] at hok
    cases hnp : np_array ((p :: ps).map Prod.fst) with
    | error e =>
      simp only [hnp] at hok
      exact absurd hok (by simp)
    | ok pr =>
      obtain ⟨fa, fsh⟩ := pr
      simp only [hnp] at hok
      by_cases h3 : fsh.length = 3
      · rw [if_pos h3] at hok
        obtain ⟨m, hr⟩ := branch_ts_inv (index0 (transpose210 fa fsh))
          ((p :: ps).map Prod.snd) _ _ _ _ hok
        subst hr
        simp [Ret.tsSeq, NDA.children]
      · rw [if_neg h3] at hok
        by_cases h2 : fsh.length = 2
        · rw [if_pos h2] at hok
          obtain ⟨m, hr⟩ := branch_ts_inv (.ok (transpose10 fa fsh))
            ((p :: ps).map Prod.snd) _ _ _ _ hok
          subst hr
          simp [Ret.tsSeq, NDA.children]
        · rw [if_neg h2] at hok
          obtain ⟨m, hr⟩ := branch_ts_inv (.ok fa)
            ((p :: ps).map Prod.snd) _ _ _ _ hok
          subst hr
          simp [Ret.tsSeq, NDA.children]

/-- Witness for C3: two data messages with one-row timestamps `[100]` and
`[101]`; the drain returns a batch whose timestamp sequence is
`[100, 101]` — the first rows of the two timestamps in arrival order,
length 2. -/
theorem c3_timestamps_witness :
    (Ret.arr (.node [.node [.scalar 1, .scalar 3], .node [.scalar 2, .scalar 4]])
        (.node [.scalar 100, .scalar 101]) []).tsSeq
      = [NDA.scalar 100, NDA.scalar 101] ∧
    (Ret.arr (.node [.node [.scalar 1, .scalar 3], .node [.scalar 2, .scalar 4]])
        (.node [.scalar 100, .scalar 101]) []).tsSeq.length = 2 := by
  have h := c3_timestamps_amended
    (mkState [.data (.node [.scalar 1, .scalar 2]) (.node [.scalar 100]),
              .data (.node [.scalar 3, .scalar 4]) (.node [.scalar 101])])
    (mkState [])
    [(.node [.scalar 1, .scalar 2], .node [.scalar 100]),
     (.node [.scalar 3, .scalar 4], .node [.scalar 101])]
    (.arr (.node [.node [.scalar 1, .scalar 3], .node [.scalar 2, .scalar 4]])
        (.node [.scalar 100, .scalar 101]) [])
    rfl rfl
  exact ⟨h.1, h.2⟩

end BAlertX24
